import Mathlib

/-!
Verification of the txtx migration scripts (addons/evm/*.py): a shallow
embedding of the per-file text rewriters (`convert_tests.py`,
`convert_tests_v2.py`, `fix_all_runbooks.py`, `fix_remaining_tests.py`,
`fix_compilation_errors.py`, `fix_missing_abi.py`).

Text is modelled as `List Char`.  Each `re.sub(pattern, repl, s)` call of the
Python source is embedded as a left-to-right scanner over the character list:
at every position the specific pattern's matcher is attempted (the patterns
are all concrete, so each matcher is written out as a deterministic parser
that reproduces the Python regex semantics for that pattern, including word
boundaries, greedy character classes and lazy sections); on a match the
replacement is emitted and scanning resumes after the matched characters, on
a failure one character is copied.  Word-boundary context is threaded through
the scan as the previously consumed character of the original text, exactly
as the regex engine sees it.
-/

set_option maxRecDepth 10000

abbrev Text := List Char

/-- Characters of a string literal. -/
def str (s : String) : Text := s.data

/-- Python regex `\w` on ASCII input: letters, digits, underscore. -/
def isWordChar (c : Char) : Bool :=
  (('a' ≤ c) && (c ≤ 'z')) || (('A' ≤ c) && (c ≤ 'Z')) ||
  (('0' ≤ c) && (c ≤ '9')) || (c = '_')

/-- Python regex `\s`: space, tab, newline, carriage return, vertical tab, form feed. -/
def isSpaceChar (c : Char) : Bool :=
  (c = ' ') || (c = '\t') || (c = '\n') || (c = '\r') || (c = '\x0b') || (c = '\x0c')

/-- Python regex `\d` on ASCII input. -/
def isDigitChar (c : Char) : Bool := ('0' ≤ c) && (c ≤ '9')

/-- Does `pat` occur as a leading piece of `s`? -/
def startsWithL : Text → Text → Bool
  | [], _ => true
  | _ :: _, [] => false
  | a :: as, b :: bs => (a = b) && startsWithL as bs

/-- Python's substring test `pat in s`. -/
def containsSub (pat : Text) : Text → Bool
  | [] => startsWithL pat []
  | c :: r => startsWithL pat (c :: r) || containsSub pat r

/-- Consume the literal `pat` from the head of `s`, returning the rest. -/
def dropLit : Text → Text → Option Text
  | [], s => some s
  | _ :: _, [] => none
  | a :: as, b :: bs => if a = b then dropLit as bs else none

/-- Consume one specific character. -/
def chomp (c : Char) : Text → Option Text
  | [] => none
  | x :: xs => if x = c then some xs else none

/-- Greedy `p+`: one or more characters satisfying `p` (maximal run). -/
def spanPlus (p : Char → Bool) (s : Text) : Option (Text × Text) :=
  let t := s.span p
  if t.1.isEmpty then none else some t

/-- Greedy `p*`: zero or more characters satisfying `p` (maximal run). -/
def spanStar (p : Char → Bool) (s : Text) : Text × Text := s.span p

/-- Python `\b` before a word character: start of text or a non-word character before. -/
def wordBoundary : Option Char → Bool
  | none => true
  | some c => !isWordChar c

/-- Does `w` occur as a trailing piece of `s`? -/
def endsWithL (w s : Text) : Bool := startsWithL w.reverse s.reverse

/-!
Generic scanning engine.  A matcher `try` receives the previously consumed
character of the original text (for `\b`) and the current suffix; it returns a
payload together with the remaining suffix after the match.  For substitution
the payload is the replacement text; for `re.findall` it is the tuple of
captured groups.  All matchers of this development consume at least one
character on success, so fuel equal to the input length makes the scan total
and faithful.
-/

/-- Engine for `re.sub`: replace every non-overlapping match, left to right. -/
def subGo (tryM : Option Char → Text → Option (Text × Text)) :
    Nat → Option Char → Text → Text
  | 0, _, s => s
  | _ + 1, _, [] => []
  | fuel + 1, prev, c :: rest =>
    match tryM prev (c :: rest) with
    | some (r, rest2) =>
      let m := (c :: rest).take ((c :: rest).length - rest2.length)
      r ++ subGo tryM fuel m.getLast? rest2
    | none => c :: subGo tryM fuel (some c) rest

/-- Run a substitution over a whole text. -/
def runSub (tryM : Option Char → Text → Option (Text × Text)) (s : Text) : Text :=
  subGo tryM s.length none s

/-- Engine for `re.findall`: collect the payloads of all non-overlapping matches. -/
def findAllGo {α : Type} (tryM : Option Char → Text → Option (α × Text)) :
    Nat → Option Char → Text → List α
  | 0, _, _ => []
  | _ + 1, _, [] => []
  | fuel + 1, prev, c :: rest =>
    match tryM prev (c :: rest) with
    | some (a, rest2) =>
      let m := (c :: rest).take ((c :: rest).length - rest2.length)
      a :: findAllGo tryM fuel m.getLast? rest2
    | none => findAllGo tryM fuel (some c) rest

/-- Run a findall over a whole text. -/
def runFindAll {α : Type} (tryM : Option Char → Text → Option (α × Text)) (s : Text) :
    List α :=
  findAllGo tryM s.length none s

/-- Does the matcher succeed at any position of the scan? -/
def hasMatchGo {α : Type} (tryM : Option Char → Text → Option (α × Text)) :
    Nat → Option Char → Text → Bool
  | 0, _, _ => false
  | _ + 1, _, [] => false
  | fuel + 1, prev, c :: rest =>
    (tryM prev (c :: rest)).isSome || hasMatchGo tryM fuel (some c) rest

/-- Matcher test over a whole text, with the same fuel as the engines. -/
def hasMatchT {α : Type} (tryM : Option Char → Text → Option (α × Text)) (s : Text) :
    Bool :=
  hasMatchGo tryM s.length none s

theorem subGo_of_no_match {tryM : Option Char → Text → Option (Text × Text)} :
    ∀ (fuel : Nat) (prev : Option Char) (s : Text),
      hasMatchGo tryM fuel prev s = false → subGo tryM fuel prev s = s := by
  intro fuel
  induction fuel with
  | zero => intro prev s _; rfl
  | succ n ih =>
    intro prev s h
    cases s with
    | nil => rfl
    | cons c rest =>
      simp only [hasMatchGo, Bool.or_eq_false_iff] at h
      simp only [subGo]
      have hn : tryM prev (c :: rest) = none := by
        cases hx : tryM prev (c :: rest) with
        | none => rfl
        | some v => rw [hx] at h; simp at h
      rw [hn]
      simp only [ih (some c) rest h.2]

theorem runSub_of_no_match {tryM : Option Char → Text → Option (Text × Text)}
    (s : Text) (h : hasMatchT tryM s = false) : runSub tryM s = s :=
  subGo_of_no_match s.length none s h

theorem findAllGo_of_no_match {α : Type} {tryM : Option Char → Text → Option (α × Text)} :
    ∀ (fuel : Nat) (prev : Option Char) (s : Text),
      hasMatchGo tryM fuel prev s = false → findAllGo tryM fuel prev s = [] := by
  intro fuel
  induction fuel with
  | zero => intro prev s _; rfl
  | succ n ih =>
    intro prev s h
    cases s with
    | nil => rfl
    | cons c rest =>
      simp only [hasMatchGo, Bool.or_eq_false_iff] at h
      simp only [findAllGo]
      have hn : tryM prev (c :: rest) = none := by
        cases hx : tryM prev (c :: rest) with
        | none => rfl
        | some v => rw [hx] at h; simp at h
      rw [hn]
      exact ih (some c) rest h.2

theorem runFindAll_of_no_match {α : Type} {tryM : Option Char → Text → Option (α × Text)}
    (s : Text) (h : hasMatchT tryM s = false) : runFindAll tryM s = [] :=
  findAllGo_of_no_match s.length none s h

/-!
Embedding of `fix_all_runbooks.py`.

`FIELD_REPLACEMENTS` maps an evm action type to an ordered list of rules
`\b<word>\s*=` → literal replacement (dict insertion order, Python 3.7+).
`fix_runbook_file` finds every `action "<name>" "<ns>::<ty>"` header with
`re.findall`, then for each found evm action type rewrites every region
matching `action\s+"[^"]+"\s+"evm::<ty>"\s*\{[^}]*\}` by applying that type's
rules inside the region only; afterwards the two signer-type substitutions and
the two numeric quote-stripping substitutions run over the whole content.
-/

/-- Matcher for a rule `\b<word>\s*=` with a fixed literal replacement. -/
def tryField (w repl : Text) (prev : Option Char) (s : Text) : Option (Text × Text) :=
  if wordBoundary prev then do
    let s1 ← dropLit w s
    let t := spanStar isSpaceChar s1
    let s2 ← chomp '=' t.2
    pure (repl, s2)
  else none

/-- Rules for `send_eth` blocks, in dict order. -/
def sendEthRules : List (Option Char → Text → Option (Text × Text)) :=
  [tryField (str "to") (str "recipient_address ="),
   tryField (str "value") (str "amount ="),
   tryField (str "from") (str "# from field removed - using signer\n    # from =")]

/-- Rules for `call_contract` blocks, in dict order. -/
def callContractRules : List (Option Char → Text → Option (Text × Text)) :=
  [tryField (str "contract") (str "contract_address ="),
   tryField (str "abi") (str "contract_abi ="),
   tryField (str "function") (str "function_name ="),
   tryField (str "function_arguments") (str "function_args =")]

/-- Rules for `deploy_contract` blocks, in dict order. -/
def deployContractRules : List (Option Char → Text → Option (Text × Text)) :=
  [tryField (str "abi") (str "contract_abi ="),
   tryField (str "bytecode") (str "contract_bytecode ="),
   tryField (str "constructor_arguments") (str "constructor_args =")]

/-- Rules for `eth_call` blocks, in dict order. -/
def ethCallRules : List (Option Char → Text → Option (Text × Text)) :=
  [tryField (str "contract") (str "contract_address ="),
   tryField (str "abi") (str "contract_abi ="),
   tryField (str "function") (str "function_name ="),
   tryField (str "function_arguments") (str "function_args =")]

/-- Lookup in `FIELD_REPLACEMENTS` by action type name. -/
def fieldRulesFor (ty : Text) : Option (List (Option Char → Text → Option (Text × Text))) :=
  if ty = str "send_eth" then some sendEthRules
  else if ty = str "call_contract" then some callContractRules
  else if ty = str "deploy_contract" then some deployContractRules
  else if ty = str "eth_call" then some ethCallRules
  else none

/-- Apply a rule list in order, each rule's output feeding the next
(`for pattern, replacement in FIELD_REPLACEMENTS[action_type].items()`). -/
def applyRules (rules : List (Option Char → Text → Option (Text × Text))) (b : Text) :
    Text :=
  rules.foldl (fun bb r => runSub r bb) b

/-- Matcher for the findall pattern `action\s+"[^"]+"\s+"(\w+)::(\w+)"`,
returning the two captured groups. -/
def tryActionHdr (_prev : Option Char) (s : Text) : Option ((Text × Text) × Text) := do
  let s1 ← dropLit (str "action") s
  let t1 ← spanPlus isSpaceChar s1
  let s2 ← chomp '"' t1.2
  let t2 ← spanPlus (fun c => !(c = '"')) s2
  let s3 ← chomp '"' t2.2
  let t3 ← spanPlus isSpaceChar s3
  let s4 ← chomp '"' t3.2
  let t4 ← spanPlus isWordChar s4
  let s5 ← dropLit (str "::") t4.2
  let t5 ← spanPlus isWordChar s5
  let s6 ← chomp '"' t5.2
  pure ((t4.1, t5.1), s6)

/-- Parse the block pattern `action\s+"[^"]+"\s+"evm::<ty>"\s*\{[^}]*\}`,
returning the rest after the match. -/
def parseBlock (ty : Text) (s : Text) : Option Text := do
  let s1 ← dropLit (str "action") s
  let t1 ← spanPlus isSpaceChar s1
  let s2 ← chomp '"' t1.2
  let t2 ← spanPlus (fun c => !(c = '"')) s2
  let s3 ← chomp '"' t2.2
  let t3 ← spanPlus isSpaceChar s3
  let s4 ← chomp '"' t3.2
  let s5 ← dropLit (str "evm::" ++ ty) s4
  let s6 ← chomp '"' s5
  let t4 := spanStar isSpaceChar s6
  let s7 ← chomp '\x7b' t4.2
  let t5 := spanStar (fun c => !(c = '\x7d')) s7
  let s8 ← chomp '\x7d' t5.2
  pure s8

/-- Matcher for one action block of type `ty`; the replacement is the matched
region with the rule list applied inside it (`replace_in_block`). -/
def tryBlock (ty : Text) (rules : List (Option Char → Text → Option (Text × Text)))
    (_prev : Option Char) (s : Text) : Option (Text × Text) :=
  match parseBlock ty s with
  | some rest =>
    let m := s.take (s.length - rest.length)
    some (applyRules rules m, rest)
  | none => none

/-- Matcher for `signer\s+<q>([^<q>]+)<q>\s+<q>evm::private_key<q>` where `q`
is the quote character; replacement rebuilds `signer <q>\1<q> <q>evm::secret_key<q>`. -/
def trySigner (q : Char) (_prev : Option Char) (s : Text) : Option (Text × Text) := do
  let s1 ← dropLit (str "signer") s
  let t1 ← spanPlus isSpaceChar s1
  let s2 ← chomp q t1.2
  let t2 ← spanPlus (fun c => !(c = q)) s2
  let s3 ← chomp q t2.2
  let t3 ← spanPlus isSpaceChar s3
  let s4 ← dropLit (q :: (str "evm::private_key" ++ [q])) t3.2
  pure (str "signer " ++ (q :: t2.1) ++ (q :: str " ") ++ (q :: str "evm::secret_key") ++ [q], s4)

/-- Matcher for `(\w+\s*=\s*)["\'](\d+)["\']`; replacement is `\1\2`. -/
def tryNum1 (_prev : Option Char) (s : Text) : Option (Text × Text) := do
  let t1 ← spanPlus isWordChar s
  let t2 := spanStar isSpaceChar t1.2
  let s1 ← chomp '=' t2.2
  let t3 := spanStar isSpaceChar s1
  match t3.2 with
  | [] => none
  | q1 :: s2 =>
    if (q1 = '"') || (q1 = '\x27') then do
      let t4 ← spanPlus isDigitChar s2
      match t4.2 with
      | [] => none
      | q2 :: s3 =>
        if (q2 = '"') || (q2 = '\x27') then
          pure (t1.1 ++ t2.1 ++ ('=' :: t3.1) ++ t4.1, s3)
        else none
    else none

/-- Greedy `(?:_\d+)*`: repetitions of an underscore followed by digits. -/
def uRepsGo : Nat → Text → Text × Text
  | 0, s => ([], s)
  | fuel + 1, s =>
    match s with
    | '_' :: s2 =>
      match spanPlus isDigitChar s2 with
      | some (d, s3) =>
        let t := uRepsGo fuel s3
        ('_' :: (d ++ t.1), t.2)
      | none => ([], s)
    | _ => ([], s)

/-- Matcher for `(\w+\s*=\s*)["\'](\d+(?:_\d+)*)["\']`; replacement is `\1\2`. -/
def tryNum2 (_prev : Option Char) (s : Text) : Option (Text × Text) := do
  let t1 ← spanPlus isWordChar s
  let t2 := spanStar isSpaceChar t1.2
  let s1 ← chomp '=' t2.2
  let t3 := spanStar isSpaceChar s1
  match t3.2 with
  | [] => none
  | q1 :: s2 =>
    if (q1 = '"') || (q1 = '\x27') then do
      let t4 ← spanPlus isDigitChar s2
      let t5 := uRepsGo t4.2.length t4.2
      match t5.2 with
      | [] => none
      | q2 :: s3 =>
        if (q2 = '"') || (q2 = '\x27') then
          pure (t1.1 ++ t2.1 ++ ('=' :: t3.1) ++ (t4.1 ++ t5.1), s3)
        else none
    else none

/-- Pass over the found action list: for each `(namespace, type)` pair with
namespace `evm` and a known type, rewrite all blocks of that type. -/
def actionsPass (acts : List (Text × Text)) (c : Text) : Text :=
  acts.foldl
    (fun cc p =>
      if p.1 = str "evm" then
        match fieldRulesFor p.2 with
        | some rules => runSub (tryBlock p.2 rules) cc
        | none => cc
      else cc)
    c

/-- In-memory transformation of `fix_runbook_file` (read … write excluded). -/
def fixRunbookTransform (c : Text) : Text :=
  let acts := runFindAll tryActionHdr c
  let c1 := actionsPass acts c
  let c2 := runSub (trySigner '"') c1
  let c3 := runSub (trySigner '\x27') c2
  let c4 := runSub tryNum1 c3
  runSub tryNum2 c4

/-- Shared write gate `if content != original_content: write` of the
compare-before-write scripts. -/
def writeIfChanged (t content : Text) : Text × Bool :=
  if t = content then (content, false) else (t, true)

/-- Per-file operation of `fix_runbook_file`: returns the on-disk content after
the call and whether a write occurred. -/
def fixRunbookFile (content : Text) : Text × Bool :=
  writeIfChanged (fixRunbookTransform content) content

/-!
Embedding of `convert_tests.py` (v1).
-/

/-- Literal-to-literal substitution matcher. -/
def tryLit (w repl : Text) (_prev : Option Char) (s : Text) : Option (Text × Text) := do
  let s1 ← dropLit w s
  pure (repl, s1)

/-- Matcher for `#\[test\]\s+fn (\w+)\(\)` of `convert_tests.py`;
replacement `#[tokio::test]\n    async fn \1()`. -/
def tryTestFnV1 (_prev : Option Char) (s : Text) : Option (Text × Text) := do
  let s1 ← dropLit (str "#[test]") s
  let t1 ← spanPlus isSpaceChar s1
  let s2 ← dropLit (str "fn ") t1.2
  let t2 ← spanPlus isWordChar s2
  let s3 ← dropLit (str "()") t2.2
  pure (str "#[tokio::test]\n    async fn " ++ t2.1 ++ str "()", s3)

/-- Matcher for `\.with_input\(([^)]+)\);` of `convert_tests.py`. -/
def tryWithInputV1 (_prev : Option Char) (s : Text) : Option (Text × Text) := do
  let s1 ← dropLit (str ".with_input(") s
  let t1 ← spanPlus (fun c => !(c = ')')) s1
  let s2 ← dropLit (str ");") t1.2
  pure (str ".with_input(" ++ t1.1 ++
        str ")\n            .execute()\n            .await\n            .expect(\"Failed to execute test\");", s2)

/-- Matcher for `let result = harness\.execute_runbook\(\)\s*\.expect\([^)]+\);`
(deleted). -/
def tryExecExpectV1 (_prev : Option Char) (s : Text) : Option (Text × Text) := do
  let s1 ← dropLit (str "let result = harness.execute_runbook()") s
  let t1 := spanStar isSpaceChar s1
  let s2 ← dropLit (str ".expect(") t1.2
  let t2 ← spanPlus (fun c => !(c = ')')) s2
  let s3 ← dropLit (str ");") t2.2
  pure ([], s3)

/-- Matcher for `let result = result\s+` (deleted). -/
def tryResultResult (_prev : Option Char) (s : Text) : Option (Text × Text) := do
  let s1 ← dropLit (str "let result = result") s
  let t1 ← spanPlus isSpaceChar s1
  pure ([], t1.2)

/-- Old-harness import line replaced by both converter scripts. -/
def importOldLit : Text := str "use crate::tests::test_harness::ProjectTestHarness;"

/-- In-memory transformation pipeline of `convert_test_file` in `convert_tests.py`. -/
def transformV1 (c : Text) : Text :=
  let c1 := runSub
    (tryLit importOldLit
      (str "use crate::tests::fixture_builder::\x7bMigrationHelper, TestResult\x7d;")) c
  let c2 :=
    if !(containsSub (str "use tokio;") c1) && !(containsSub (str "#[tokio::test]") c1) then
      runSub (tryLit (str "use std::path::PathBuf;")
        (str "use std::path::PathBuf;\n    use tokio;")) c1
    else c1
  let c3 := runSub tryTestFnV1 c2
  let c4 := runSub
    (tryLit (str "let harness = ProjectTestHarness::from_fixture(&fixture_path)")
      (str "let result = MigrationHelper::from_fixture(&fixture_path)")) c3
  let c5 := runSub tryWithInputV1 c4
  let c6 := runSub tryExecExpectV1 c5
  let c7 := runSub tryResultResult c6
  runSub (tryLit (str "harness.execute_runbook()") (str "result.execute().await")) c7

/-- Per-file operation of `convert_test_file` in `convert_tests.py`: the marker
check comes first, then the filename denylist; otherwise the file is
transformed and written unconditionally.  Returns final on-disk content and
whether a write occurred (`True`/`False` return of the Python function marks
converted vs skipped, and a write happens exactly on the converted path). -/
def convertTestFileV1 (name content : Text) : Text × Bool :=
  if containsSub (str "MigrationHelper") content then (content, false)
  else if (name = str "mod.rs") || (name = str "anvil_harness.rs") then (content, false)
  else (transformV1 content, true)

/-- Driver of `convert_tests.py`: counts converted and skipped files. -/
def mainV1 (files : List (Text × Text)) : Nat × Nat :=
  files.foldl
    (fun acc f =>
      if (convertTestFileV1 f.1 f.2).2 then (acc.1 + 1, acc.2) else (acc.1, acc.2 + 1))
    (0, 0)

/-!
Embedding of `convert_tests_v2.py`.
-/

/-- Matcher for `#\[test\](\s+)fn (\w+)\(\)` of `convert_tests_v2.py`;
replacement `#[tokio::test]\1async fn \2()` keeps the whitespace group. -/
def tryTestFnV2 (_prev : Option Char) (s : Text) : Option (Text × Text) := do
  let s1 ← dropLit (str "#[test]") s
  let t1 ← spanPlus isSpaceChar s1
  let s2 ← dropLit (str "fn ") t1.2
  let t2 ← spanPlus isWordChar s2
  let s3 ← dropLit (str "()") t2.2
  pure (str "#[tokio::test]" ++ t1.1 ++ str "async fn " ++ t2.1 ++ str "()", s3)

/-- Lazy section `[^}]*?(use )` of the tokio-import search: consume the fewest
non-brace characters until the literal `use ` starts; fail on `}` or end. -/
def lazyToUse : Nat → Text → Option (Text × Text)
  | 0, _ => none
  | fuel + 1, s =>
    if startsWithL (str "use ") s then some ([], s)
    else
      match s with
      | [] => none
      | c :: rest =>
        if c = '\x7d' then none
        else do
          let t ← lazyToUse fuel rest
          pure (c :: t.1, t.2)

/-- Attempt of `(mod \w+ \{[^}]*?)(use )` at the current position, returning
group 1 and the rest starting at `use `. -/
def tryModUse (s : Text) : Option (Text × Text) := do
  let s1 ← dropLit (str "mod ") s
  let t1 ← spanPlus isWordChar s1
  let s2 ← dropLit (str " \x7b") t1.2
  let t2 ← lazyToUse s2.length s2
  pure (str "mod " ++ t1.1 ++ str " \x7b" ++ t2.1, t2.2)

/-- Engine for `re.search(r'(mod \w+ \{[^}]*?)(use )', content, re.DOTALL)`:
first position with a match; returns the content split at `match.end(1)`. -/
def searchModUseGo : Nat → Text → Text → Option (Text × Text)
  | 0, _, _ => none
  | fuel + 1, accRev, s =>
    match tryModUse s with
    | some (g1, rest) => some (accRev.reverse ++ g1, rest)
    | none =>
      match s with
      | [] => none
      | c :: rest => searchModUseGo fuel (c :: accRev) rest

/-- Search over the whole content. -/
def searchModUse (c : Text) : Option (Text × Text) :=
  searchModUseGo (c.length + 1) [] c

/-- Greedy repetitions `(?:\s*\.with_input\([^)]+\))*` shared by the two
harness patterns of `convert_tests_v2.py`; a failed repetition leaves its
leading whitespace unconsumed. -/
def repsGo : Nat → Text → Text × Text
  | 0, s => ([], s)
  | fuel + 1, s =>
    let t0 := spanStar isSpaceChar s
    match dropLit (str ".with_input(") t0.2 with
    | some s2 =>
      match spanPlus (fun c => !(c = ')')) s2 with
      | some (g, s3) =>
        match chomp ')' s3 with
        | some s4 =>
          let t := repsGo fuel s4
          (t0.1 ++ str ".with_input(" ++ g ++ str ")" ++ t.1, t.2)
        | none => ([], s)
      | none => ([], s)
    | none => ([], s)

/-- Matcher for pattern 1 of `convert_tests_v2.py` (harness creation chained
with `execute_runbook().expect(...)`). -/
def tryPattern1 (_prev : Option Char) (s : Text) : Option (Text × Text) := do
  let s1 ← dropLit (str "let harness = ProjectTestHarness::from_fixture(&fixture_path)") s
  let t1 := repsGo s1.length s1
  let t2 := spanStar isSpaceChar t1.2
  let s2 := match chomp ';' t2.2 with | some r => r | none => t2.2
  let t3 := spanStar isSpaceChar s2
  let s3 ← dropLit (str "let result = harness.execute_runbook()") t3.2
  let t4 := spanStar isSpaceChar s3
  let s4 ← dropLit (str ".expect(") t4.2
  let t5 ← spanPlus (fun c => !(c = ')')) s4
  let s5 ← dropLit (str ");") t5.2
  pure (str "let result = MigrationHelper::from_fixture(&fixture_path)" ++ t1.1 ++
        str "\n            .execute()\n            .await\n            .expect(\"Failed to execute runbook\");", s5)

/-- Matcher for pattern 2 of `convert_tests_v2.py` (harness creation with
separate execution). -/
def tryPattern2 (_prev : Option Char) (s : Text) : Option (Text × Text) := do
  let s1 ← dropLit (str "let harness = ProjectTestHarness::from_fixture(&fixture_path)") s
  let t1 := repsGo s1.length s1
  let t2 := spanStar isSpaceChar t1.2
  let s2 ← chomp ';' t2.2
  pure (str "let harness = MigrationHelper::from_fixture(&fixture_path)" ++ t1.1 ++ str ";", s2)

/-- Matcher for `harness\.execute_runbook\(\)(\s*\.expect\([^)]+\))?` of
`convert_tests_v2.py`; the optional group is kept in the replacement. -/
def tryExecOpt (_prev : Option Char) (s : Text) : Option (Text × Text) := do
  let s1 ← dropLit (str "harness.execute_runbook()") s
  let opt : Option (Text × Text) := do
    let t1 := spanStar isSpaceChar s1
    let s2 ← dropLit (str ".expect(") t1.2
    let t2 ← spanPlus (fun c => !(c = ')')) s2
    let s3 ← chomp ')' t2.2
    pure (t1.1 ++ str ".expect(" ++ t2.1 ++ str ")", s3)
  match opt with
  | some (g, s3) => pure (str "harness.execute().await" ++ g, s3)
  | none => pure (str "harness.execute().await", s1)

/-- New-harness import line of `convert_tests_v2.py`. -/
def importNewV2 : Text := str "use crate::tests::fixture_builder::MigrationHelper;"

/-- In-memory transformation pipeline of `convert_test_file` in
`convert_tests_v2.py`. -/
def transformV2 (c : Text) : Text :=
  let c1 := runSub (tryLit importOldLit importNewV2) c
  let c2 :=
    if containsSub (str "#[test]") c1 && !(containsSub (str "use tokio;") c1) then
      match searchModUse c1 with
      | some (pre, post) => pre ++ str "use tokio;\n    " ++ post
      | none => c1
    else c1
  let c3 := runSub tryTestFnV2 c2
  let c4 := runSub tryPattern1 c3
  let c5 := runSub tryPattern2 c4
  let c6 := runSub tryExecOpt c5
  let c7 := runSub
    (tryLit (str "let result = harness.execute().await")
      (str "let result = harness.execute().await")) c6
  if containsSub (str "Value") c7 && !(containsSub (str "txtx_addon_kit::types::types::Value") c7) then
    runSub (tryLit importNewV2
      (importNewV2 ++ str "\n    use txtx_addon_kit::types::types::Value;")) c7
  else c7

/-- Per-file operation of `convert_test_file` in `convert_tests_v2.py`:
denylist first, then the three-marker already-converted check, then transform
and write only on change. -/
def convertTestFileV2 (name content : Text) : Text × Bool :=
  if (name = str "mod.rs") || (name = str "anvil_harness.rs") then (content, false)
  else if containsSub (str "MigrationHelper") content &&
          containsSub (str ".execute()") content &&
          containsSub (str ".await") content then (content, false)
  else writeIfChanged (transformV2 content) content

/-- Driver of `convert_tests_v2.py`: counts converted and skipped/unchanged
files (two counters only). -/
def mainV2 (files : List (Text × Text)) : Nat × Nat :=
  files.foldl
    (fun acc f =>
      if (convertTestFileV2 f.1 f.2).2 then (acc.1 + 1, acc.2) else (acc.1, acc.2 + 1))
    (0, 0)

/-- Per-file outcome classes of the v2 driver, one per print branch of
`convert_test_file`. -/
inductive Outcome where
  | denylisted : Outcome
  | alreadyMigrated : Outcome
  | changed : Outcome
  | unchanged : Outcome
deriving DecidableEq, BEq, Repr

/-- Classification of a file by the v2 per-file operation, following the
branch order of the code. -/
def classifyV2 (name content : Text) : Outcome :=
  if (name = str "mod.rs") || (name = str "anvil_harness.rs") then .denylisted
  else if containsSub (str "MigrationHelper") content &&
          containsSub (str ".execute()") content &&
          containsSub (str ".await") content then .alreadyMigrated
  else if transformV2 content = content then .unchanged
  else .changed

/-!
Embedding of `fix_remaining_tests.py` (`fix_file`).
-/

/-- Optionally consume one character (`c?`). -/
def optChomp (c : Char) (s : Text) : Text :=
  match chomp c s with
  | some r => r
  | none => s

/-- Matcher for `use crate::tests::test_harness::\{?ProjectTestHarness\}?;?\n`
(deleted). -/
def tryRemImport (_prev : Option Char) (s : Text) : Option (Text × Text) := do
  let s1 ← dropLit (str "use crate::tests::test_harness::") s
  let s2 := optChomp '\x7b' s1
  let s3 ← dropLit (str "ProjectTestHarness") s2
  let s4 := optChomp '\x7d' s3
  let s5 := optChomp ';' s4
  let s6 ← chomp '\n' s5
  pure ([], s6)

/-- Matcher for `(mod \w+ \{)`; replacement appends the MigrationHelper
import. -/
def tryModBraceIns (_prev : Option Char) (s : Text) : Option (Text × Text) := do
  let s1 ← dropLit (str "mod ") s
  let t1 ← spanPlus isWordChar s1
  let s2 ← dropLit (str " \x7b") t1.2
  pure (str "mod " ++ t1.1 ++ str " \x7b\n    use crate::tests::fixture_builder::MigrationHelper;", s2)

/-- Matcher for `let result = harness\s*\n?\s*\.execute\(\)\s*\n?\s*\.await`
(whitespace collapsed). -/
def tryExecJoin (_prev : Option Char) (s : Text) : Option (Text × Text) := do
  let s1 ← dropLit (str "let result = harness") s
  let t1 := spanStar isSpaceChar s1
  let s2 ← dropLit (str ".execute()") t1.2
  let t2 := spanStar isSpaceChar s2
  let s3 ← dropLit (str ".await") t2.2
  pure (str "let result = harness.execute().await", s3)

/-- Lazy section of `use crate::tests::test_harness::.*?;` (no DOTALL): the
fewest non-newline characters up to the first `;`. -/
def lazyToSemi : Nat → Text → Option Text
  | 0, _ => none
  | fuel + 1, s =>
    match s with
    | [] => none
    | c :: rest =>
      if c = ';' then some rest
      else if c = '\n' then none
      else lazyToSemi fuel rest

/-- Matcher for `use crate::tests::test_harness::.*?;` of the
`new_with_content` special case. -/
def tryOldImportAny (_prev : Option Char) (s : Text) : Option (Text × Text) := do
  let s1 ← dropLit (str "use crate::tests::test_harness::") s
  let s2 ← lazyToSemi s1.length s1
  pure (str "use crate::tests::fixture_builder::\x7bFixtureBuilder, get_anvil_manager\x7d;", s2)

/-- Matcher for the `new_with_content` pattern of `fix_remaining_tests.py`. -/
def tryNewContent (_prev : Option Char) (s : Text) : Option (Text × Text) := do
  let s1 ← dropLit (str "let harness = ProjectTestHarness::new_with_content(") s
  let t1 := spanStar isSpaceChar s1
  let s2 ← chomp '"' t1.2
  let t2 ← spanPlus (fun c => !(c = '"')) s2
  let s3 ← chomp '"' t2.2
  let s4 ← chomp ',' s3
  let t3 := spanStar isSpaceChar s4
  let t4 ← spanPlus (fun c => !(c = ')')) t3.2
  let t5 := spanStar isSpaceChar t4.2
  let s5 ← chomp ')' t5.2
  let s6 ← dropLit (str ".with_anvil();") s5
  pure (str "let fixture = FixtureBuilder::new(\"" ++ t2.1 ++
        str "\")\n            .with_runbook(\"main\", " ++ t4.1 ++
        str ")\n            .build()\n            .await\n            .expect(\"Failed to build fixture\");", s6)

/-- Matcher for `harness\.setup\(\)\.expect\([^)]+\);`. -/
def trySetup (_prev : Option Char) (s : Text) : Option (Text × Text) := do
  let s1 ← dropLit (str "harness.setup().expect(") s
  let t1 ← spanPlus (fun c => !(c = ')')) s1
  let s2 ← dropLit (str ");") t1.2
  pure (str "// Project already set up by FixtureBuilder", s2)

/-- In-memory transformation of `fix_file` in `fix_remaining_tests.py`. -/
def transformRemaining (c : Text) : Text :=
  let c1 := runSub tryRemImport c
  let c2 :=
    if !(containsSub (str "use crate::tests::fixture_builder") c1) then
      runSub tryModBraceIns c1
    else c1
  let c3 := runSub
    (tryLit (str "ProjectTestHarness::from_fixture(&fixture_path)")
      (str "MigrationHelper::from_fixture(&fixture_path)")) c2
  let c4 := runSub
    (tryLit (str "let mut harness = MigrationHelper")
      (str "let harness = MigrationHelper")) c3
  let c5 := runSub (tryLit (str ".with_anvil()") []) c4
  let c6 := runSub tryExecJoin c5
  if containsSub (str "ProjectTestHarness::new_with_content") c6 then
    let c7 := runSub tryOldImportAny c6
    let c8 := runSub tryNewContent c7
    let c9 := runSub trySetup c8
    runSub (tryLit (str "harness.project_path") (str "fixture.project_dir")) c9
  else c6

/-- Per-file operation of `fix_file` in `fix_remaining_tests.py`: write only on
change. -/
def fixFileRemaining (content : Text) : Text × Bool :=
  writeIfChanged (transformRemaining content) content

/-!
Embedding of `fix_compilation_errors.py` (`fix_file`).
-/

/-- Greedy `\w+_result`: a maximal word run that must end in `_result` with at
least one character before it (the only split the regex backtracking can
accept, since a word character may not follow the group). -/
def wordEndingResult (s : Text) : Option (Text × Text) := do
  let t ← spanPlus isWordChar s
  if endsWithL (str "_result") t.1 && decide (7 < t.1.length) then pure t else none

/-- Matcher for the duplicate-execution pattern
`\.execute\(\)\s*\.await\s*\.expect\([^)]+\);?\s*let \w+_result = \w+_result\.execute\(\)\.await`. -/
def tryDupExec (_prev : Option Char) (s : Text) : Option (Text × Text) := do
  let s1 ← dropLit (str ".execute()") s
  let t1 := spanStar isSpaceChar s1
  let s2 ← dropLit (str ".await") t1.2
  let t2 := spanStar isSpaceChar s2
  let s3 ← dropLit (str ".expect(") t2.2
  let t3 ← spanPlus (fun c => !(c = ')')) s3
  let s4 ← chomp ')' t3.2
  let s5 := optChomp ';' s4
  let t4 := spanStar isSpaceChar s5
  let s6 ← dropLit (str "let ") t4.2
  let t5 ← wordEndingResult s6
  let s7 ← dropLit (str " = ") t5.2
  let t6 ← wordEndingResult s7
  let s8 ← dropLit (str ".execute().await") t6.2
  pure (str ".execute()\n            .await", s8)

/-- Matcher for `let mut (\w+) = MigrationHelper`. -/
def tryLetMut (_prev : Option Char) (s : Text) : Option (Text × Text) := do
  let s1 ← dropLit (str "let mut ") s
  let t1 ← spanPlus isWordChar s1
  let s2 ← dropLit (str " = MigrationHelper") t1.2
  pure (str "let " ++ t1.1 ++ str " = MigrationHelper", s2)

/-- Lazy section of `(.*?\.expect\([^)]+\));` (DOTALL): the group is the fewest
characters followed by `.expect(...)`, and the whole must be closed by `;`. -/
def lazyExpSemi : Nat → Text → Option (Text × Text)
  | 0, _ => none
  | fuel + 1, s =>
    match
      (do
        let s1 ← dropLit (str ".expect(") s
        let t1 ← spanPlus (fun c => !(c = ')')) s1
        let s2 ← chomp ')' t1.2
        let s3 ← chomp ';' s2
        pure (str ".expect(" ++ t1.1 ++ str ")", s3) : Option (Text × Text)) with
    | some r => some r
    | none =>
      match s with
      | [] => none
      | c :: rest => do
        let t ← lazyExpSemi fuel rest
        pure (c :: t.1, t.2)

/-- Matcher for `let harness = (.*?\.expect\([^)]+\));` (DOTALL);
replacement `let result = \1;`. -/
def tryHarnessLazyExpect (_prev : Option Char) (s : Text) : Option (Text × Text) := do
  let s1 ← dropLit (str "let harness = ") s
  let t1 ← lazyExpSemi s1.length s1
  pure (str "let result = " ++ t1.1 ++ str ";", t1.2)

/-- Lazy section of `(.*?)\.expect\([^)]+\);` (DOTALL): the group is the fewest
characters before an `.expect(...);` tail. -/
def lazyBeforeExpect : Nat → Text → Option (Text × Text)
  | 0, _ => none
  | fuel + 1, s =>
    match
      (do
        let s1 ← dropLit (str ".expect(") s
        let t1 ← spanPlus (fun c => !(c = ')')) s1
        let s2 ← dropLit (str ");") t1.2
        pure s2 : Option Text) with
    | some s2 => some ([], s2)
    | none =>
      match s with
      | [] => none
      | c :: rest => do
        let t ← lazyBeforeExpect fuel rest
        pure (c :: t.1, t.2)

/-- Matcher for `let mut deploy_harness = MigrationHelper(.*?)\.expect\([^)]+\);`. -/
def tryDeployHarness (_prev : Option Char) (s : Text) : Option (Text × Text) := do
  let s1 ← dropLit (str "let mut deploy_harness = MigrationHelper") s
  let t1 ← lazyBeforeExpect s1.length s1
  pure (str "let deploy_result = MigrationHelper" ++ t1.1 ++ str ".expect(\"Failed to execute\");", t1.2)

/-- Matcher for `let mut call_harness = MigrationHelper(.*?)\.expect\([^)]+\);`. -/
def tryCallHarness (_prev : Option Char) (s : Text) : Option (Text × Text) := do
  let s1 ← dropLit (str "let mut call_harness = MigrationHelper") s
  let t1 ← lazyBeforeExpect s1.length s1
  pure (str "let call_result = MigrationHelper" ++ t1.1 ++ str ".expect(\"Failed to execute\");", t1.2)

/-- Matcher for `let (\w+_result) = \1\.execute\(\)\.await` (backreference). -/
def tryDupResult (_prev : Option Char) (s : Text) : Option (Text × Text) := do
  let s1 ← dropLit (str "let ") s
  let t1 ← wordEndingResult s1
  let s2 ← dropLit (str " = ") t1.2
  let s3 ← dropLit t1.1 s2
  let s4 ← dropLit (str ".execute().await") s3
  pure (str "// Execution already done above", s4)

/-- In-memory transformation of `fix_file` in `fix_compilation_errors.py`. -/
def transformCompilation (c : Text) : Text :=
  let c1 :=
    if containsSub (str "let harness = MigrationHelper") c &&
       containsSub (str "assert!(result.") c then
      runSub (tryLit (str "let harness = MigrationHelper")
        (str "let result = MigrationHelper")) c
    else c
  let c2 := runSub tryDupExec c1
  let c3 := runSub
    (tryLit (str "ProjectTestHarness::from_fixture")
      (str "MigrationHelper::from_fixture")) c2
  let c4 := runSub tryLetMut c3
  let c5 :=
    if containsSub (str "let harness = ") c4 && containsSub (str "result.success") c4 then
      runSub tryHarnessLazyExpect c4
    else c4
  let c6 := runSub tryDeployHarness c5
  let c7 := runSub tryCallHarness c6
  runSub tryDupResult c7

/-- Per-file operation of `fix_file` in `fix_compilation_errors.py`: write only
on change. -/
def fixFileCompilation (content : Text) : Text × Bool :=
  writeIfChanged (transformCompilation content) content

/-!
Embedding of `fix_missing_abi.py` (`add_missing_abi`).  The file is a list of
lines (each line keeps its trailing newline, as `readlines` produces).
-/

/-- Net brace count of one line: `line.count('{') - line.count('}')`. -/
def braceDelta (l : Text) : Int :=
  (l.count '\x7b' : Int) - (l.count '\x7d' : Int)

/-- First loop of `add_missing_abi` ("find where the block starts"): scan from
the header line over the lines that contain `{`, accumulating the net brace
count of those lines only, and stop as soon as the accumulator is positive. -/
def loop1 (acc : Int) : List Text → Int
  | [] => acc
  | l :: rest =>
    if l.contains '\x7b' then
      let acc2 := acc + braceDelta l
      if 0 < acc2 then acc2 else loop1 acc2 rest
    else loop1 acc rest

/-- Second loop of `add_missing_abi` ("find where the block ends"): restart at
the line after the header with the accumulator left by the first loop, add
every line's net brace count, and stop at the first line where the
accumulator is exactly zero. -/
def loop2 (acc : Int) : Nat → List Text → Option Nat
  | _, [] => none
  | j, l :: rest =>
    let acc2 := acc + braceDelta l
    if acc2 = 0 then some j else loop2 acc2 (j + 1) rest

/-- Block end computed by `add_missing_abi` for a header at index `i`:
`block_end` keeps its initial value `i` when the second loop never hits
zero. -/
def findBlockEnd (lines : List Text) (i : Nat) : Nat :=
  match loop2 (loop1 0 (lines.drop i)) (i + 1) (lines.drop (i + 1)) with
  | some j => j
  | none => i

/-- Modelled from the spec: "Locates every block … using brace-depth counting
starting from the header line: scan forward accumulating a depth counter
(+1 per opening delimiter, -1 per closing delimiter encountered on or after
the header line); the block's end is the first line where depth returns to
zero after having been positive at least once."  Stated for refinement
comparison with `findBlockEnd`. -/
def claimedScan (depth : Int) (seen : Bool) : Nat → List Text → Option Nat
  | _, [] => none
  | j, l :: rest =>
    let d2 := depth + braceDelta l
    let seen2 := seen || decide (0 < d2)
    if d2 = 0 && seen2 then some j else claimedScan d2 seen2 (j + 1) rest

/-- Block end according to the spec's brace-depth description. -/
def claimedBlockEnd (lines : List Text) (i : Nat) : Option Nat :=
  claimedScan 0 false i (lines.drop i)

/-- Python's `len(line) - len(line.lstrip())`. -/
def indentOf (l : Text) : Nat := (l.takeWhile isSpaceChar).length

/-- Inserted line body for a block mentioning `getValue`. -/
def abiLineGetValue : Text :=
  str "contract_abi = \x27[\x7b\"inputs\":[],\"name\":\"getValue\",\"outputs\":[\x7b\"internalType\":\"uint256\",\"name\":\"\",\"type\":\"uint256\"\x7d],\"stateMutability\":\"view\",\"type\":\"function\"\x7d]\x27\n"

/-- Inserted line body for a block mentioning `setValue`. -/
def abiLineSetValue : Text :=
  str "contract_abi = \x27[\x7b\"inputs\":[\x7b\"internalType\":\"uint256\",\"name\":\"value\",\"type\":\"uint256\"\x7d],\"name\":\"setValue\",\"outputs\":[],\"stateMutability\":\"nonpayable\",\"type\":\"function\"\x7d]\x27\n"

/-- Inserted line body for a block mentioning `transfer`. -/
def abiLineTransfer : Text :=
  str "contract_abi = \x27[\x7b\"inputs\":[\x7b\"internalType\":\"address\",\"name\":\"to\",\"type\":\"address\"\x7d,\x7b\"internalType\":\"uint256\",\"name\":\"amount\",\"type\":\"uint256\"\x7d],\"name\":\"transfer\",\"outputs\":[\x7b\"internalType\":\"bool\",\"name\":\"\",\"type\":\"bool\"\x7d],\"stateMutability\":\"nonpayable\",\"type\":\"function\"\x7d]\x27\n"

/-- Inserted line body for a block referencing `action.deploy`. -/
def abiLineDeploy : Text := str "contract_abi = action.deploy.contract_abi\n"

/-- Inserted line body when no context marker matches. -/
def abiLineDefault : Text :=
  str "contract_abi = action.deploy.contract_abi  # Use deployed contract ABI\n"

/-- Fallback table of `add_missing_abi`: the inserted line, chosen by testing
context markers of the block text in the fixed order getValue, setValue,
transfer, action.deploy, with a generic default. -/
def chooseAbiLine (blockText : Text) (indent : Nat) : Text :=
  let sp : Text := List.replicate indent ' '
  if containsSub (str "getValue") blockText then sp ++ abiLineGetValue
  else if containsSub (str "setValue") blockText then sp ++ abiLineSetValue
  else if containsSub (str "transfer") blockText then sp ++ abiLineTransfer
  else if containsSub (str "action.deploy") blockText then sp ++ abiLineDeploy
  else sp ++ abiLineDefault

/-- Python `lines.insert(k, v)` (appends when the index is past the end). -/
def insertAt : Nat → Text → List Text → List Text
  | 0, a, l => a :: l
  | _ + 1, a, [] => [a]
  | n + 1, a, x :: xs => x :: insertAt n a xs

/-- Anchor search of `add_missing_abi`: the first `j` in
`range(block_start + 1, block_end)` whose line contains `contract_address`. -/
def findAnchor (lines : List Text) : Nat → Nat → Option Nat
  | j, hi =>
    if h : j < hi then
      if containsSub (str "contract_address") (lines.getD j []) then some j
      else findAnchor lines (j + 1) hi
    else none
termination_by j hi => hi - j

/-- One candidate inspection plus the insertion bookkeeping of the while loop
of `add_missing_abi`; `i` is the current line index. -/
def abiGo : Nat → List Text → Bool → Nat → List Text × Bool
  | 0, lines, m, _ => (lines, m)
  | fuel + 1, lines, m, i =>
    match lines.drop i with
    | [] => (lines, m)
    | hd :: _ =>
      if containsSub (str "action") hd && containsSub (str "\"evm::call_contract\"") hd then
        if containsSub (str "contract_abi")
            (((lines.drop i).take (findBlockEnd lines i + 1 - i)).flatten) then
          abiGo fuel lines m (i + 1)
        else
          match findAnchor lines (i + 1) (findBlockEnd lines i) with
          | some j =>
            abiGo fuel
              (insertAt (j + 1)
                (chooseAbiLine (((lines.drop i).take (findBlockEnd lines i + 1 - i)).flatten)
                  (indentOf (lines.getD j []))) lines)
              true (j + 3)
          | none => abiGo fuel lines m (i + 1)
      else abiGo fuel lines m (i + 1)

/-- In-memory effect of `add_missing_abi` on the line list, with the
`modified` flag. -/
def addMissingAbi (lines : List Text) : List Text × Bool :=
  abiGo (2 * lines.length + 2) lines false 0

/-- Per-file operation of `add_missing_abi`: `writelines` happens only when
the `modified` flag was set. -/
def addMissingAbiFile (lines : List Text) : List Text × Bool :=
  let t := addMissingAbi lines
  if t.2 then (t.1, true) else (lines, false)

/-!
Helper lemmas.
-/

theorem drop_succ_of_drop_cons {α : Type} {l : List α} {i : Nat} {hd : α} {tl : List α}
    (h : l.drop i = hd :: tl) : l.drop (i + 1) = tl := by
  rw [← List.tail_drop, h]
  rfl

theorem insertAt_length : ∀ (n : Nat) (a : Text) (l : List Text),
    (insertAt n a l).length = l.length + 1 := by
  intro n
  induction n with
  | zero => intro a l; rfl
  | succ k ih =>
    intro a l
    cases l with
    | nil => rfl
    | cons x xs => simp [insertAt, ih]

theorem abiGo_inv : ∀ (fuel : Nat) (lines : List Text) (m : Bool) (i : Nat),
    ((abiGo fuel lines m i).2 = false → (abiGo fuel lines m i).1 = lines) ∧
    lines.length ≤ (abiGo fuel lines m i).1.length ∧
    (m = true → (abiGo fuel lines m i).2 = true) ∧
    (m = false → (abiGo fuel lines m i).2 = true →
      lines.length < (abiGo fuel lines m i).1.length) := by
  intro fuel
  induction fuel with
  | zero =>
    intro lines m i
    refine ⟨fun _ => rfl, le_refl _, fun h => h, fun hf ht => ?_⟩
    rw [show (abiGo 0 lines m i).2 = m from rfl] at ht
    rw [hf] at ht
    exact absurd ht (by simp)
  | succ n ih =>
    intro lines m i
    cases hdrop : lines.drop i with
    | nil =>
      have hstep : abiGo (n + 1) lines m i = (lines, m) := by
        simp only [abiGo]
        rw [hdrop]
      rw [hstep]
      refine ⟨fun _ => rfl, le_refl _, fun h => h, fun hf ht => ?_⟩
      rw [hf] at ht
      exact absurd ht (by simp)
    | cons hd tl =>
      have hstep : abiGo (n + 1) lines m i =
          (if containsSub (str "action") hd && containsSub (str "\"evm::call_contract\"") hd then
            if containsSub (str "contract_abi")
                (((lines.drop i).take (findBlockEnd lines i + 1 - i)).flatten) then
              abiGo n lines m (i + 1)
            else
              match findAnchor lines (i + 1) (findBlockEnd lines i) with
              | some j =>
                abiGo n
                  (insertAt (j + 1)
                    (chooseAbiLine (((lines.drop i).take (findBlockEnd lines i + 1 - i)).flatten)
                      (indentOf (lines.getD j []))) lines)
                  true (j + 3)
              | none => abiGo n lines m (i + 1)
          else abiGo n lines m (i + 1)) := by
        simp only [abiGo]
        rw [hdrop]
      rw [hstep]
      split
      · split
        · exact ih lines m (i + 1)
        · split
          · rename_i j _
            obtain ⟨ha, hb, hc, hd2⟩ :=
              ih (insertAt (j + 1)
                (chooseAbiLine (((lines.drop i).take (findBlockEnd lines i + 1 - i)).flatten)
                  (indentOf (lines.getD j []))) lines) true (j + 3)
            have hlen := insertAt_length (j + 1)
              (chooseAbiLine (((lines.drop i).take (findBlockEnd lines i + 1 - i)).flatten)
                (indentOf (lines.getD j []))) lines
            refine ⟨fun h => ?_, ?_, fun _ => hc rfl, fun _ _ => ?_⟩
            · rw [hc rfl] at h
              exact absurd h (by simp)
            · omega
            · omega
          · exact ih lines m (i + 1)
      · exact ih lines m (i + 1)

theorem claimedScan_eq_loop2 : ∀ (tl : List Text) (acc : Int) (j : Nat),
    claimedScan acc true j tl = loop2 acc j tl := by
  intro tl
  induction tl with
  | nil => intro acc j; rfl
  | cons l rest ih =>
    intro acc j
    simp only [claimedScan, loop2, Bool.true_or, Bool.and_true]
    by_cases h : acc + braceDelta l = 0
    · simp [h]
    · simp [h, ih]

theorem writeIfChanged_spec (t c : Text) :
    ((writeIfChanged t c).2 = false → (writeIfChanged t c).1 = c) ∧
    ((writeIfChanged t c).2 = true → (writeIfChanged t c).1 ≠ c) := by
  unfold writeIfChanged
  by_cases h : t = c
  · simp [h]
  · simp [h]

theorem convertV2_flag_eq (name content : Text) :
    (convertTestFileV2 name content).2 = (classifyV2 name content == Outcome.changed) := by
  unfold convertTestFileV2 classifyV2 writeIfChanged
  split
  · rfl
  · split
    · rfl
    · by_cases h : transformV2 content = content
      · rw [if_pos h, if_pos h]
        rfl
      · rw [if_neg h, if_neg h]
        rfl

theorem mainV2_fold : ∀ (files : List (Text × Text)) (a b : Nat),
    files.foldl
      (fun acc f =>
        if (convertTestFileV2 f.1 f.2).2 then (acc.1 + 1, acc.2) else (acc.1, acc.2 + 1))
      (a, b)
      = (a + files.countP (fun f => classifyV2 f.1 f.2 == Outcome.changed),
         b + files.countP (fun f => !(classifyV2 f.1 f.2 == Outcome.changed))) := by
  intro files
  induction files with
  | nil => intro a b; simp
  | cons f fs ih =>
    intro a b
    rw [List.foldl_cons]
    by_cases h : (classifyV2 f.1 f.2 == Outcome.changed) = true
    · have hf : (convertTestFileV2 f.1 f.2).2 = true := by
        rw [convertV2_flag_eq, h]
      simp only [hf, if_true, ih, List.countP_cons, h]
      simp [Prod.mk.injEq]
      omega
    · have hf : (convertTestFileV2 f.1 f.2).2 = false := by
        rw [convertV2_flag_eq]
        simp [Bool.not_eq_true] at h
        exact h
      simp only [hf, Bool.false_eq_true, if_false, ih, List.countP_cons, h]
      simp [Prod.mk.injEq, h]
      omega

/-!
Claim theorems.
-/

/-- C1 (amended): the per-file operations of `convert_tests_v2.py`,
`fix_all_runbooks.py`, `fix_remaining_tests.py`, `fix_compilation_errors.py`
and `fix_missing_abi.py` write back exactly when the transformed content
differs from the original, and when no write occurs the on-disk content is
unchanged; `convert_tests.py`'s `convert_test_file`, however, writes
unconditionally whenever the file is not skipped, even when the
transformation leaves the content identical. -/
theorem c1_compare_before_write :
    (∀ name content : Text,
      ((convertTestFileV2 name content).2 = false →
        (convertTestFileV2 name content).1 = content) ∧
      ((convertTestFileV2 name content).2 = true →
        (convertTestFileV2 name content).1 ≠ content)) ∧
    (∀ content : Text,
      ((fixRunbookFile content).2 = false → (fixRunbookFile content).1 = content) ∧
      ((fixRunbookFile content).2 = true → (fixRunbookFile content).1 ≠ content)) ∧
    (∀ content : Text,
      ((fixFileRemaining content).2 = false → (fixFileRemaining content).1 = content) ∧
      ((fixFileRemaining content).2 = true → (fixFileRemaining content).1 ≠ content)) ∧
    (∀ content : Text,
      ((fixFileCompilation content).2 = false → (fixFileCompilation content).1 = content) ∧
      ((fixFileCompilation content).2 = true → (fixFileCompilation content).1 ≠ content)) ∧
    (∀ lines : List Text,
      ((addMissingAbiFile lines).2 = false → (addMissingAbiFile lines).1 = lines) ∧
      ((addMissingAbiFile lines).2 = true → (addMissingAbiFile lines).1 ≠ lines)) ∧
    (∀ name content : Text,
      containsSub (str "MigrationHelper") content = false →
      name ≠ str "mod.rs" → name ≠ str "anvil_harness.rs" →
      (convertTestFileV1 name content).2 = true) := by
  refine ⟨?_, ?_, ?_, ?_, ?_, ?_⟩
  · intro name content
    unfold convertTestFileV2
    split
    · exact ⟨fun _ => rfl, fun ht => absurd ht (by simp)⟩
    · split
      · exact ⟨fun _ => rfl, fun ht => absurd ht (by simp)⟩
      · exact writeIfChanged_spec _ _
  · intro content
    exact writeIfChanged_spec _ _
  · intro content
    exact writeIfChanged_spec _ _
  · intro content
    exact writeIfChanged_spec _ _
  · intro lines
    obtain ⟨ha, hb, hc, hd⟩ := abiGo_inv (2 * lines.length + 2) lines false 0
    by_cases ht : (abiGo (2 * lines.length + 2) lines false 0).2 = true
    · have he : addMissingAbiFile lines =
          ((abiGo (2 * lines.length + 2) lines false 0).1, true) := by
        unfold addMissingAbiFile addMissingAbi
        simp [ht]
      rw [he]
      refine ⟨fun hcon => absurd hcon (by simp), fun _ heq => ?_⟩
      have hlt := hd rfl ht
      rw [heq] at hlt
      omega
    · have he : addMissingAbiFile lines = (lines, false) := by
        unfold addMissingAbiFile addMissingAbi
        simp [ht]
      rw [he]
      exact ⟨fun _ => rfl, fun htc => absurd htc (by simp)⟩
  · intro name content hm hn1 hn2
    unfold convertTestFileV1
    simp [hm, hn1, hn2]

/-- C1 witness: concrete instances discharging the hypotheses of
`c1_compare_before_write`. -/
theorem c1_witness :
    (fixRunbookFile (str "hello\n")).1 = str "hello\n" ∧
    (convertTestFileV1 (str "a.rs") (str "hello\n")).2 = true := by
  constructor
  · exact (c1_compare_before_write.2.1 (str "hello\n")).1 (by decide)
  · exact c1_compare_before_write.2.2.2.2.2 (str "a.rs") (str "hello\n")
      (by decide) (by decide) (by decide)

/-- C1 counterexample: `convert_tests.py`'s `convert_test_file` transforms
`"hello world\n"` to itself yet still performs a write (second component
`true`), refuting write suppression for that script. -/
theorem c1_counterexample :
    transformV1 (str "hello world\n") = str "hello world\n" ∧
    convertTestFileV1 (str "a.rs") (str "hello world\n") = (str "hello world\n", true) := by
  constructor <;> decide

/-- Example directory of C2: one convertible file, one denylisted file, one
already-migrated file. -/
def c2exDir : List (Text × Text) :=
  [(str "a.rs", str "use crate::tests::test_harness::ProjectTestHarness;\n"),
   (str "mod.rs", str "whatever\n"),
   (str "b.rs", str "// MigrationHelper .execute() .await\n")]

/-- Second directory of C2 with a different per-class profile: one convertible
file and two denylisted files. -/
def c2exDir2 : List (Text × Text) :=
  [(str "a.rs", str "use crate::tests::test_harness::ProjectTestHarness;\n"),
   (str "mod.rs", str "whatever\n"),
   (str "anvil_harness.rs", str "whatever\n")]

/-- C2 (amended): every file processed by the v2 driver falls in exactly one
of the four outcome classes (denylisted, already-migrated, changed,
unchanged), but the printed summary aggregates them into just two counters,
converted and skipped: the first summary component counts the `changed` files
and the second counts everything else.  For the example directory the summary
is `(1, 2)`, not a separate count per class. -/
theorem c2_driver_summary :
    (∀ files : List (Text × Text),
        mainV2 files =
          (files.countP (fun f => classifyV2 f.1 f.2 == Outcome.changed),
           files.countP (fun f => !(classifyV2 f.1 f.2 == Outcome.changed)))) ∧
    mainV2 c2exDir = (1, 2) ∧
    c2exDir.countP (fun f => classifyV2 f.1 f.2 == Outcome.changed) = 1 ∧
    c2exDir.countP (fun f => classifyV2 f.1 f.2 == Outcome.denylisted) = 1 ∧
    c2exDir.countP (fun f => classifyV2 f.1 f.2 == Outcome.alreadyMigrated) = 1 ∧
    c2exDir.countP (fun f => classifyV2 f.1 f.2 == Outcome.unchanged) = 0 := by
  refine ⟨fun files => ?_, by decide, by decide, by decide, by decide, by decide⟩
  unfold mainV2
  rw [mainV2_fold]
  simp

/-- C2 counterexample: two directories with different four-class profiles
(one denylisted plus one already-migrated, versus two denylisted and no
already-migrated) produce the identical summary `(1, 2)`, so the reported
summary is not a separate count for each of the four classifications. -/
theorem c2_counterexample :
    mainV2 c2exDir = (1, 2) ∧ mainV2 c2exDir2 = (1, 2) ∧
    c2exDir.countP (fun f => classifyV2 f.1 f.2 == Outcome.denylisted) = 1 ∧
    c2exDir2.countP (fun f => classifyV2 f.1 f.2 == Outcome.denylisted) = 2 ∧
    c2exDir.countP (fun f => classifyV2 f.1 f.2 == Outcome.alreadyMigrated) = 1 ∧
    c2exDir2.countP (fun f => classifyV2 f.1 f.2 == Outcome.alreadyMigrated) = 0 := by
  refine ⟨by decide, by decide, by decide, by decide, by decide, by decide⟩

/-- C3 (amended): `convert_tests.py` skips, before any substitution and
without mutation, every file containing `MigrationHelper`; the v2 converter
only skips when the file also contains `.execute()` and `.await`, so its
already-migrated guard is proved under those two additional hypotheses. -/
theorem c3_marker_skip :
    (∀ name content : Text, containsSub (str "MigrationHelper") content = true →
        convertTestFileV1 name content = (content, false)) ∧
    (∀ name content : Text, containsSub (str "MigrationHelper") content = true →
        containsSub (str ".execute()") content = true →
        containsSub (str ".await") content = true →
        convertTestFileV2 name content = (content, false)) := by
  constructor
  · intro name content h
    unfold convertTestFileV1
    simp [h]
  · intro name content h1 h2 h3
    unfold convertTestFileV2
    split
    · rfl
    · simp [h1, h2, h3]

/-- C3 witness: concrete instance discharging the hypothesis of
`c3_marker_skip`. -/
theorem c3_witness :
    convertTestFileV1 (str "t.rs") (str "// MigrationHelper\n") =
      (str "// MigrationHelper\n", false) :=
  c3_marker_skip.1 (str "t.rs") (str "// MigrationHelper\n") (by decide)

/-- Input of the C3 counterexample: contains `MigrationHelper` but not
`.execute()`. -/
def c3input : Text :=
  str "use crate::tests::test_harness::ProjectTestHarness;\n// MigrationHelper\n"

/-- Output the v2 converter writes for `c3input`. -/
def c3output : Text :=
  str "use crate::tests::fixture_builder::MigrationHelper;\n// MigrationHelper\n"

/-- C3 counterexample: a file whose content already contains the
`MigrationHelper` marker is nevertheless rewritten and written back by
`convert_tests_v2.py`, refuting the claim for that converter. -/
theorem c3_counterexample :
    containsSub (str "MigrationHelper") c3input = true ∧
    convertTestFileV2 (str "a.rs") c3input = (c3output, true) ∧
    c3output ≠ c3input := by
  refine ⟨by decide, by decide, by decide⟩

/-- Runbook on which one application of the rewriter reaches a fixed point;
it exercises the send_eth field rules, a signer replacement and the numeric
quote stripping. -/
def c4stable : Text :=
  str "signer \"alice\" \"evm::private_key\" \x7b\n  nonce = \"1\"\n\x7d\naction \"send\" \"evm::send_eth\" \x7b\n    to = input.addr\n    value = \"1_000\"\n\x7d\n"

/-- C4 (amended): the rewriter of `fix_runbook_file` is not idempotent in
general; a second application is a no-op on any content the first application
leaves unchanged, and on the representative runbook `c4stable` one
application already reaches a fixed point. -/
theorem c4_guarded_idempotence :
    (∀ c : Text, fixRunbookTransform c = c →
        fixRunbookTransform (fixRunbookTransform c) = fixRunbookTransform c) ∧
    fixRunbookTransform (fixRunbookTransform c4stable) = fixRunbookTransform c4stable := by
  constructor
  · intro c h
    rw [h, h]
  · decide

/-- C4 witness: concrete instance discharging the hypothesis of
`c4_guarded_idempotence`. -/
theorem c4_witness :
    fixRunbookTransform (fixRunbookTransform (str "x\n")) =
      fixRunbookTransform (str "x\n") :=
  c4_guarded_idempotence.1 (str "x\n") (by decide)

/-- Runbook with a `from` field in a send_eth block: the from-rule's
replacement text matches the rule again. -/
def c4cex : Text :=
  str "action \"a\" \"evm::send_eth\" \x7b\n    from = signer.x\n\x7d\n"

/-- C4 counterexample: applying the rewriter twice to `c4cex` differs from
applying it once (a second `# from field removed` comment line is
prepended), refuting idempotence. -/
theorem c4_counterexample :
    fixRunbookTransform (fixRunbookTransform c4cex) ≠ fixRunbookTransform c4cex := by
  decide

theorem dropLit_eq : ∀ (w s r : Text), dropLit w s = some r → s = w ++ r := by
  intro w
  induction w with
  | nil =>
    intro s r h
    simp [dropLit] at h
    rw [h]
    rfl
  | cons a as ih =>
    intro s r h
    cases s with
    | nil => simp [dropLit] at h
    | cons b bs =>
      simp only [dropLit] at h
      split at h
      · rename_i hab
        rw [hab]
        simp [ih bs r h]
      · exact absurd h (by simp)

theorem chomp_eq : ∀ (c : Char) (s r : Text), chomp c s = some r → s = c :: r := by
  intro c s r h
  cases s with
  | nil => simp [chomp] at h
  | cons b bs =>
    simp only [chomp] at h
    split at h
    · rename_i hb
      rw [hb]
      simp at h
      rw [h]
    · exact absurd h (by simp)

theorem spanPlus_eq {p : Char → Bool} {s : Text} {a b : Text}
    (h : spanPlus p s = some (a, b)) : s = a ++ b := by
  simp only [spanPlus] at h
  split at h
  · exact absurd h (by simp)
  · simp at h
    rw [← h.1, ← h.2]
    exact (List.takeWhile_append_dropWhile p s).symm

theorem contains_of_startsWith {pat s : Text} (h : startsWithL pat s = true) :
    containsSub pat s = true := by
  cases s with
  | nil => exact h
  | cons c r =>
    simp only [containsSub, Bool.or_eq_true]
    exact Or.inl h

theorem startsWith_self_append (pat r : Text) : startsWithL pat (pat ++ r) = true := by
  induction pat with
  | nil => rfl
  | cons a as ih => simp [startsWithL, ih]

theorem contains_mono_cons {pat r : Text} (c : Char) (h : containsSub pat r = true) :
    containsSub pat (c :: r) = true := by
  simp only [containsSub, Bool.or_eq_true]
  exact Or.inr h

theorem contains_mono_append {pat r : Text} :
    ∀ (a : Text), containsSub pat r = true → containsSub pat (a ++ r) = true := by
  intro a
  induction a with
  | nil => exact fun h => h
  | cons c cs ih => intro h; exact contains_mono_cons c (ih h)

theorem parseBlock_contains (ty : Text) :
    ∀ (s rest : Text), parseBlock ty s = some rest →
      containsSub (str "evm::" ++ ty) s = true := by
  intro s rest h
  unfold parseBlock at h
  simp only [Option.bind_eq_bind, Option.bind_eq_some] at h
  obtain ⟨s1, hs1, h⟩ := h
  obtain ⟨t1, ht1, h⟩ := h
  obtain ⟨s2, hs2, h⟩ := h
  obtain ⟨t2, ht2, h⟩ := h
  obtain ⟨s3, hs3, h⟩ := h
  obtain ⟨t3, ht3, h⟩ := h
  obtain ⟨s4, hs4, h⟩ := h
  obtain ⟨s5, hs5, _⟩ := h
  rw [dropLit_eq _ _ _ hs1, spanPlus_eq ht1, chomp_eq _ _ _ hs2, spanPlus_eq ht2,
    chomp_eq _ _ _ hs3, spanPlus_eq ht3, chomp_eq _ _ _ hs4]
  apply contains_mono_append
  apply contains_mono_append
  apply contains_mono_cons
  apply contains_mono_append
  apply contains_mono_cons
  apply contains_mono_append
  apply contains_mono_cons
  rw [dropLit_eq _ _ _ hs5]
  exact contains_of_startsWith (startsWith_self_append _ _)

theorem tryBlock_none_of_not_contains (ty : Text)
    (rules : List (Option Char → Text → Option (Text × Text)))
    (prev : Option Char) (s : Text)
    (h : containsSub (str "evm::" ++ ty) s = false) :
    tryBlock ty rules prev s = none := by
  unfold tryBlock
  cases hp : parseBlock ty s with
  | none => rfl
  | some rest =>
    rw [parseBlock_contains ty s rest hp] at h
    exact absurd h (by simp)

theorem hasMatch_block_false (ty : Text)
    (rules : List (Option Char → Text → Option (Text × Text))) :
    ∀ (fuel : Nat) (prev : Option Char) (s : Text),
      containsSub (str "evm::" ++ ty) s = false →
      hasMatchGo (tryBlock ty rules) fuel prev s = false := by
  intro fuel
  induction fuel with
  | zero => intro prev s _; rfl
  | succ n ih =>
    intro prev s h
    cases s with
    | nil => rfl
    | cons c rest =>
      have hr : containsSub (str "evm::" ++ ty) rest = false := by
        simp only [containsSub, Bool.or_eq_false_iff] at h
        exact h.2
      simp only [hasMatchGo, Bool.or_eq_false_iff]
      exact ⟨by rw [tryBlock_none_of_not_contains ty rules prev (c :: rest) h]; rfl,
        ih (some c) rest hr⟩

theorem blockPass_id_of_not_contains (ty : Text)
    (rules : List (Option Char → Text → Option (Text × Text))) (c : Text)
    (h : containsSub (str "evm::" ++ ty) c = false) :
    runSub (tryBlock ty rules) c = c :=
  runSub_of_no_match c (hasMatch_block_false ty rules c.length none c h)

/-- Runbook with a send_eth header nested inside a call_contract block. -/
def c5nested : Text :=
  str "action \"a\" \"evm::call_contract\" \x7b\n  function = \"f\"\n  action \"b\" \"evm::send_eth\" \x7b value = 1 \x7d\n\x7d\n"

/-- Result of rewriting `c5nested`. -/
def c5nestedOut : Text :=
  str "action \"a\" \"evm::call_contract\" \x7b\n  function_name = \"f\"\n  action \"b\" \"evm::send_eth\" \x7b amount = 1 \x7d\n\x7d\n"

/-- C5 counterexample: in `c5nested` the text `value = 1` lies between the
call_contract block's braces, yet the send_eth rule rewrites it to
`amount = 1`, because a send_eth header inside the call_contract block also
matches the send_eth block pattern; this refutes the claim for files with
nested headers. -/
theorem c5_counterexample :
    containsSub (str "value = 1") c5nested = true ∧
    fixRunbookTransform c5nested = c5nestedOut ∧
    containsSub (str "value = 1") c5nestedOut = false ∧
    containsSub (str "amount = 1") c5nestedOut = true := by
  refine ⟨by decide, by decide, by decide, by decide⟩

/-- Canonical file with two disjoint blocks of different types; the
call_contract block contains `value =`, the send_eth rule's pattern. -/
def c5disjoint : Text :=
  str "action \"s\" \"evm::send_eth\" \x7b\n  value = \"1\"\n\x7d\n\naction \"c\" \"evm::call_contract\" \x7b\n  value = 2\n  function = \"f\"\n\x7d\n"

/-- Result of rewriting `c5disjoint`. -/
def c5disjointOut : Text :=
  str "action \"s\" \"evm::send_eth\" \x7b\n  amount = 1\n\x7d\n\naction \"c\" \"evm::call_contract\" \x7b\n  value = 2\n  function_name = \"f\"\n\x7d\n"

/-- C5 (amended): a pass scoped to action type `ty` rewrites only substrings
matching that type's block pattern — in particular it leaves any content
without the substring `evm::<ty>` entirely unchanged (first conjunct, for
every rule set) — and on the canonical disjoint two-block file the send_eth
value-rule rewrites `value = "1"` inside the send_eth block (to `amount = 1`
after quote stripping) while `value = 2` inside the call_contract block
survives unchanged; only with a nested header of the other type inside a
block (the counterexample) does a foreign rule reach into it. -/
theorem c5_block_isolation :
    (∀ (ty : Text) (rules : List (Option Char → Text → Option (Text × Text))) (c : Text),
        containsSub (str "evm::" ++ ty) c = false →
        runSub (tryBlock ty rules) c = c) ∧
    fixRunbookTransform c5disjoint = c5disjointOut ∧
    containsSub (str "value = 2") c5disjoint = true ∧
    containsSub (str "value = 2") c5disjointOut = true ∧
    containsSub (str "amount = 1") c5disjointOut = true ∧
    containsSub (str "value = \"1\"") c5disjointOut = false := by
  refine ⟨fun ty rules c h => blockPass_id_of_not_contains ty rules c h,
    by decide, by decide, by decide, by decide, by decide⟩

/-- C5 witness: concrete instance discharging the hypothesis of the scoping
conjunct of `c5_block_isolation`: the send_eth pass does not touch a file
that has only a call_contract block, even though it contains `value =`. -/
theorem c5_witness :
    runSub (tryBlock (str "send_eth") sendEthRules)
      (str "action \"c\" \"evm::call_contract\" \x7b value = 1 \x7d\n") =
      str "action \"c\" \"evm::call_contract\" \x7b value = 1 \x7d\n" :=
  c5_block_isolation.1 (str "send_eth") sendEthRules
    (str "action \"c\" \"evm::call_contract\" \x7b value = 1 \x7d\n") (by decide)

/-- Lines of the C6 counterexample: the opening brace is on the line after
the header. -/
def c6cexLines : List Text :=
  [str "action \"a\" \"evm::call_contract\"\n", str "\x7b\n", str "x\n", str "\x7d\n"]

/-- C6 counterexample: on `c6cexLines` the spec's brace-depth scan identifies
line 3 as the block end, but the code's two-loop computation double-counts
the opening line (the second loop restarts at the line after the header) and
finds no end at all, leaving `block_end` at the header index 0. -/
theorem c6_counterexample :
    findBlockEnd c6cexLines 0 = 0 ∧ claimedBlockEnd c6cexLines 0 = some 3 := by
  constructor <;> decide

/-- C6 (amended): when the header line itself opens the block (its net brace
count is positive), the code's block end agrees with the spec's brace-depth
description: it is the first following line at which the cumulative depth
returns to zero, and when no such line exists no block is identified
(`block_end` stays at the header). -/
theorem c6_blockend (lines : List Text) (i : Nat) (hd : Text) (tl : List Text)
    (hdrop : lines.drop i = hd :: tl) (hbrace : hd.contains '\x7b' = true)
    (hpos : 0 < braceDelta hd) :
    match claimedBlockEnd lines i with
    | some e => findBlockEnd lines i = e
    | none => findBlockEnd lines i = i := by
  have hdrop1 : lines.drop (i + 1) = tl := drop_succ_of_drop_cons hdrop
  have hl1 : loop1 0 (hd :: tl) = braceDelta hd := by
    unfold loop1
    simp only [hbrace, if_true, zero_add]
    rw [if_pos hpos]
  have hfb : findBlockEnd lines i =
      (match loop2 (braceDelta hd) (i + 1) tl with | some j => j | none => i) := by
    unfold findBlockEnd
    rw [hdrop, hdrop1, hl1]
  have hcb : claimedBlockEnd lines i = loop2 (braceDelta hd) (i + 1) tl := by
    unfold claimedBlockEnd
    rw [hdrop]
    unfold claimedScan
    have hne : decide (braceDelta hd = 0) = false := by
      simp
      omega
    have hse : (false || decide (0 < braceDelta hd)) = true := by
      simp
      omega
    simp only [zero_add, hne, hse, Bool.false_and, Bool.false_eq_true, if_false]
    exact claimedScan_eq_loop2 tl (braceDelta hd) (i + 1)
  rw [hcb, hfb]
  cases loop2 (braceDelta hd) (i + 1) tl with
  | none => rfl
  | some e => rfl

/-- C6 witness lines: a balanced block whose header opens it. -/
def c6wLines : List Text :=
  [str "action \"a\" \"evm::call_contract\" \x7b\n", str "x\n", str "\x7d\n"]

/-- C6 witness: instance of `c6_blockend` on a concrete balanced block. -/
theorem c6_witness :
    findBlockEnd c6wLines 0 = 2 := by
  have h := c6_blockend c6wLines 0 (str "action \"a\" \"evm::call_contract\" \x7b\n")
    [str "x\n", str "\x7d\n"] rfl (by decide) (by decide)
  have he : claimedBlockEnd c6wLines 0 = some 2 := by decide
  rw [he] at h
  exact h

/-- C7: when the counter of the code's end-search never returns to zero
before end of file, no block is identified (`block_end` stays at the header
index) and the candidate inspection inserts nothing: the while-loop step
leaves the line list and the modified flag untouched and just advances to the
next line. -/
theorem c7_unbalanced_no_insert (fuel : Nat) (lines : List Text) (m : Bool) (i : Nat)
    (hd : Text) (tl : List Text)
    (hdrop : lines.drop i = hd :: tl)
    (h1 : containsSub (str "action") hd = true)
    (h2 : containsSub (str "\"evm::call_contract\"") hd = true)
    (hnz : loop2 (loop1 0 (hd :: tl)) (i + 1) tl = none) :
    findBlockEnd lines i = i ∧
    abiGo (fuel + 1) lines m i = abiGo fuel lines m (i + 1) := by
  have hdrop1 : lines.drop (i + 1) = tl := drop_succ_of_drop_cons hdrop
  have hfb : findBlockEnd lines i = i := by
    unfold findBlockEnd
    rw [hdrop, hdrop1, hnz]
  refine ⟨hfb, ?_⟩
  have hstep : abiGo (fuel + 1) lines m i =
      (if containsSub (str "action") hd && containsSub (str "\"evm::call_contract\"") hd then
        if containsSub (str "contract_abi")
            (((lines.drop i).take (findBlockEnd lines i + 1 - i)).flatten) then
          abiGo fuel lines m (i + 1)
        else
          match findAnchor lines (i + 1) (findBlockEnd lines i) with
          | some j =>
            abiGo fuel
              (insertAt (j + 1)
                (chooseAbiLine (((lines.drop i).take (findBlockEnd lines i + 1 - i)).flatten)
                  (indentOf (lines.getD j []))) lines)
              true (j + 3)
          | none => abiGo fuel lines m (i + 1)
      else abiGo fuel lines m (i + 1)) := by
    simp only [abiGo]
    rw [hdrop]
  rw [hstep, hfb]
  have han : findAnchor lines (i + 1) i = none := by
    unfold findAnchor
    rw [dif_neg (by omega)]
  simp only [h1, h2, Bool.and_self, if_true, han]
  split
  · rfl
  · rfl

/-- C7 witness lines: a call_contract header whose block never closes. -/
def c7wLines : List Text :=
  [str "action \"c\" \"evm::call_contract\" \x7b\n", str "x\n"]

/-- C7 witness: instance of `c7_unbalanced_no_insert` on a concrete
unterminated block. -/
theorem c7_witness :
    findBlockEnd c7wLines 0 = 0 ∧ abiGo 4 c7wLines false 0 = abiGo 3 c7wLines false 1 :=
  c7_unbalanced_no_insert 3 c7wLines false 0 (str "action \"c\" \"evm::call_contract\" \x7b\n")
    [str "x\n"] rfl (by decide) (by decide) (by decide)

/-- C8: the inserted `contract_abi` value is chosen by testing the block text
against the context markers in the fixed priority order getValue, setValue,
transfer, action.deploy, first match winning, and falls back to the generic
`action.deploy.contract_abi` expression when no marker matches. -/
theorem c8_abi_priority (b : Text) (n : Nat) :
    (containsSub (str "getValue") b = true →
        chooseAbiLine b n = List.replicate n ' ' ++ abiLineGetValue) ∧
    (containsSub (str "getValue") b = false →
     containsSub (str "setValue") b = true →
        chooseAbiLine b n = List.replicate n ' ' ++ abiLineSetValue) ∧
    (containsSub (str "getValue") b = false →
     containsSub (str "setValue") b = false →
     containsSub (str "transfer") b = true →
        chooseAbiLine b n = List.replicate n ' ' ++ abiLineTransfer) ∧
    (containsSub (str "getValue") b = false →
     containsSub (str "setValue") b = false →
     containsSub (str "transfer") b = false →
     containsSub (str "action.deploy") b = true →
        chooseAbiLine b n = List.replicate n ' ' ++ abiLineDeploy) ∧
    (containsSub (str "getValue") b = false →
     containsSub (str "setValue") b = false →
     containsSub (str "transfer") b = false →
     containsSub (str "action.deploy") b = false →
        chooseAbiLine b n = List.replicate n ' ' ++ abiLineDefault) := by
  refine ⟨fun h1 => ?_, fun h1 h2 => ?_, fun h1 h2 h3 => ?_,
    fun h1 h2 h3 h4 => ?_, fun h1 h2 h3 h4 => ?_⟩ <;>
    simp [chooseAbiLine, *]

/-- C8 witness: a block containing both `getValue` and `setValue` receives
the getValue-associated value, per the fixed priority order. -/
theorem c8_witness :
    chooseAbiLine (str "getValue setValue") 4 = List.replicate 4 ' ' ++ abiLineGetValue :=
  (c8_abi_priority (str "getValue setValue") 4).1 (by decide)

/-- C9: when no rule pattern of the rewriter matches anywhere in the content
(each matcher fails at every position, and the tokio-import search finds
nothing), the output equals the input exactly, and a rule matching zero times
simply has no effect; stated for `fix_runbook_file`'s transformation and for
`convert_test_file` of `convert_tests_v2.py`. -/
theorem c9_noop_on_no_match :
    (∀ c : Text,
      hasMatchT tryActionHdr c = false →
      hasMatchT (trySigner '"') c = false →
      hasMatchT (trySigner '\x27') c = false →
      hasMatchT tryNum1 c = false →
      hasMatchT tryNum2 c = false →
      fixRunbookTransform c = c) ∧
    (∀ c : Text,
      hasMatchT (tryLit importOldLit importNewV2) c = false →
      searchModUse c = none →
      hasMatchT tryTestFnV2 c = false →
      hasMatchT tryPattern1 c = false →
      hasMatchT tryPattern2 c = false →
      hasMatchT tryExecOpt c = false →
      hasMatchT (tryLit (str "let result = harness.execute().await")
        (str "let result = harness.execute().await")) c = false →
      hasMatchT (tryLit importNewV2
        (importNewV2 ++ str "\n    use txtx_addon_kit::types::types::Value;")) c = false →
      transformV2 c = c) := by
  constructor
  · intro c h1 h2 h3 h4 h5
    simp only [fixRunbookTransform]
    rw [runFindAll_of_no_match c h1]
    have hap : actionsPass [] c = c := rfl
    rw [hap, runSub_of_no_match c h2, runSub_of_no_match c h3,
      runSub_of_no_match c h4, runSub_of_no_match c h5]
  · intro c g1 g2 g3 g4 g5 g6 g7 g8
    simp only [transformV2]
    rw [runSub_of_no_match c g1]
    have hcond :
        (if containsSub (str "#[test]") c && !(containsSub (str "use tokio;") c) then
          match searchModUse c with
          | some (pre, post) => pre ++ str "use tokio;\n    " ++ post
          | none => c
        else c) = c := by
      split
      · rw [g2]
      · rfl
    rw [hcond, runSub_of_no_match c g3, runSub_of_no_match c g4,
      runSub_of_no_match c g5, runSub_of_no_match c g6, runSub_of_no_match c g7]
    split
    · rw [runSub_of_no_match c g8]
    · rfl

/-- C9 witness: concrete instance discharging the matcher hypotheses of
`c9_noop_on_no_match` on content none of the patterns match. -/
theorem c9_witness :
    fixRunbookTransform (str "hello\n") = str "hello\n" ∧
    transformV2 (str "hello\n") = str "hello\n" :=
  ⟨c9_noop_on_no_match.1 (str "hello\n")
      (by decide) (by decide) (by decide) (by decide) (by decide),
   c9_noop_on_no_match.2 (str "hello\n")
      (by decide) (by decide) (by decide) (by decide) (by decide) (by decide)
      (by decide) (by decide)⟩

/-- File with quoted numeric assignments inside a signer block, inside a
non-evm action block, and outside any block. -/
def c10file : Text :=
  str "signer \"alice\" \"evm::secret_key\" \x7b\n  nonce = \"1\"\n\x7d\naction \"x\" \"std::foo\" \x7b\n  chain = \"5\"\n\x7d\nport = \"8545\"\n"

/-- Result of rewriting `c10file`: every quoted numeric value is unquoted. -/
def c10fileOut : Text :=
  str "signer \"alice\" \"evm::secret_key\" \x7b\n  nonce = 1\n\x7d\naction \"x\" \"std::foo\" \x7b\n  chain = 5\n\x7d\nport = 8545\n"

/-- C10: the numeric quote-stripping substitutions of `fix_runbook_file` are
applied to the whole content after the block-scoped pass (factorisation
conjunct), so they are not restricted to evm action blocks: on `c10file` the
quoted digits inside a signer block, inside a `std::foo` action block, and
outside any block are all unquoted. -/
theorem c10_numeric_unscoped :
    (∀ c : Text,
        fixRunbookTransform c =
          runSub tryNum2 (runSub tryNum1
            (runSub (trySigner '\x27') (runSub (trySigner '"')
              (actionsPass (runFindAll tryActionHdr c) c))))) ∧
    fixRunbookTransform c10file = c10fileOut ∧
    containsSub (str "nonce = \"1\"") c10file = true ∧
    containsSub (str "nonce = 1") c10fileOut = true ∧
    containsSub (str "chain = \"5\"") c10file = true ∧
    containsSub (str "chain = 5") c10fileOut = true ∧
    containsSub (str "port = \"8545\"") c10file = true ∧
    containsSub (str "port = 8545") c10fileOut = true := by
  refine ⟨fun c => rfl, by decide, by decide, by decide, by decide, by decide,
    by decide, by decide⟩
